import Mathlib

/-!
Verification development for `api/views/map/route.py` (pedestrian route service).

The Python source is shallowly embedded below.  Floating-point numbers are
modelled as real numbers, the external mapping provider (the `DoubleGis` client)
is modelled as a record of response-returning functions, the external
`geopy.distance.great_circle` call is an abstract parameter `dist`, and WKT
geometry strings (`geomet.wkt.loads`) are modelled as already-decoded
coordinates.  Fallible code returns `Except Err`; the three failure modes of
the source are a raised `rest_framework` `ValidationError` on a provider
non-success status, the `TypeError` from subscripting the `None` optimal point
when a candidate list is empty, and the `IndexError` from `items[0]` on an
empty item list.
-/

set_option autoImplicit false

/-- A geojson `Point`: `coordinates = (longitude, latitude)`. -/
structure Point where
  lon : ℝ
  lat : ℝ

/-- A normalized point dictionary used in response payloads:
`{'longitude': ..., 'latitude': ...}`. -/
structure LonLat where
  longitude : ℝ
  latitude : ℝ

/-- One provider edge; `edge['geometry']['selection']` is a WKT linestring,
modelled as its decoded coordinate list. -/
structure Edge where
  geometry : List Point

/-- One provider step: `step['edges']`. -/
structure RouteStep where
  edges : List Edge

/-- One provider leg: `leg['steps']`. -/
structure Leg where
  steps : List RouteStep

/-- One routing result item: `response['result']['items'][i]['legs']`. -/
structure RouteItem where
  legs : List Leg

/-- Directions response: `meta.code` and `result.items` flattened into one record. -/
structure DirectionsResponse where
  status : ℕ
  items : List RouteItem

/-- A geo-search item: `item['geometry']['selection']` (WKT, modelled decoded)
plus the rest of the item dictionary as an opaque payload. -/
structure GeoItem where
  geometry_selection : Point
  payload : ℕ

/-- Geo-search response: `meta.code` and `result.items`. -/
structure GeoResponse where
  status : ℕ
  items : List GeoItem

/-- A catalog/branch-search item: `item['point'] = {'lon': ..., 'lat': ...}`
plus the rest of the item dictionary as an opaque payload. -/
structure OrgItem where
  point_lon : ℝ
  point_lat : ℝ
  payload : ℕ

/-- Branch-search response: `meta.code` and `result.items`. -/
structure BranchResponse where
  status : ℕ
  items : List OrgItem

/-- An item whose `'point'` key has been overwritten with the normalized
`{'longitude', 'latitude'}` dictionary (done both by the destination scorer
and by the route-point metadata enrichment). -/
structure EnrichedItem where
  point : LonLat
  payload : ℕ

/-- The body of the final `Response` built by `prepare_route_response`. -/
structure RouteResponse where
  walking_time : ℝ
  route : List LonLat
  route_points : List EnrichedItem
  steps_count : ℤ
  end_point_data : Option EnrichedItem

/-- Failure modes of the embedded code. -/
inductive Err where
  /-- `raise ValidationError(response)` on a provider non-success status. -/
  | validationError
  /-- `optimal_point['coordinates']` with `optimal_point is None`: the
  `TypeError` hit when a candidate list is empty (the spec's `NoCandidatesError`). -/
  | noneTypeError
  /-- `response['result']['items'][0]` on an empty item list (`IndexError`). -/
  | indexError
deriving DecidableEq

/-- The external DoubleGis client (`self.api`), modelled as a record of
response-returning operations.  `geo.search` is called with two distinct
parameter shapes in the source (a bounding rectangle with an optional query,
and a single point with a 100m radius); these are modelled as two fields. -/
structure Provider where
  /-- `api.transport.calculate_directions(waypoints=..., edge_filter='pedestrian', alternative=...)`;
  the textual waypoint query is modelled as the coordinate list it serializes. -/
  calculate_directions : List (ℝ × ℝ) → ℕ → DirectionsResponse
  /-- `api.geo.search(point=..., fields=..., radius=100, type='attraction,poi', page_size=1)`. -/
  geo_search_nearby : ℝ × ℝ → GeoResponse
  /-- `api.geo.search(point1=..., point2=..., fields='items.geometry.selection', type=..., q?)`. -/
  geo_search_rect : ℝ × ℝ → ℝ × ℝ → Option String → GeoResponse
  /-- `api.catalog.branch.search(point1=..., point2=..., fields='items.point', type=..., q?)`. -/
  branch_search : ℝ × ℝ → ℝ × ℝ → Option String → BranchResponse

/-- `SPEED = 3 * 1000 / 60` (metres per minute). -/
noncomputable def SPEED : ℝ := 3 * 1000 / 60

/-- `AVERAGE_STRIDE_LENGTH = 0.6` (metres). -/
noncomputable def AVERAGE_STRIDE_LENGTH : ℝ := 0.6

/-- `METADATA_ROUTE_POINTS_COUNT = 4`. -/
def METADATA_ROUTE_POINTS_COUNT : ℕ := 4

/-- `OPTIMAL_WALK_TIME = 30` (minutes). -/
noncomputable def OPTIMAL_WALK_TIME : ℝ := 30

/-- `ALTERNATIVES_COUNT = 5` (class constant of `ConcreteRouteView`). -/
def ALTERNATIVES_COUNT : ℕ := 5

/-- Python's built-in `round` (banker's rounding: ties go to the even integer). -/
noncomputable def pyRound (x : ℝ) : ℤ :=
  if Int.fract x = 1 / 2 then (if Even ⌊x⌋ then ⌊x⌋ else ⌊x⌋ + 1) else round x

/-- Python's `round(x, 2)`: round to two decimal places. -/
noncomputable def pyRound2 (x : ℝ) : ℝ := (pyRound (x * 100) : ℝ) / 100

/-- `points_to_query`: serializes waypoints into the provider's textual
coordinate-list format; the join of `'{} {}'.format(*point['coordinates'])`
strings is modelled as the coordinate sequence itself. -/
def points_to_query (points : List Point) : List (ℝ × ℝ) :=
  points.map fun point => (point.lon, point.lat)

/-- `estimate_walking_time`: `great_circle(p1, p2).meters / SPEED` (minutes).
`great_circle` is the external geopy call, abstracted as `dist`. -/
noncomputable def estimate_walking_time (dist : Point → Point → ℝ) (point1 point2 : Point) : ℝ :=
  dist point1 point2 / SPEED

/-- `serialize_linestring`: positions to `{'longitude', 'latitude'}` dictionaries. -/
def serialize_linestring (linestring : List Point) : List LonLat :=
  linestring.map fun position => ⟨position.lon, position.lat⟩

/-- Modelled from the spec: `get_center_of_points` lives in
`utils/double_gis/geometry.py`, which is not among the provided sources.
The spec (section 4.1) defines it as the arithmetic midpoint of the two
coordinate pairs. -/
noncomputable def get_center_of_points (p1 p2 : Point) : ℝ × ℝ :=
  ((p1.lon + p2.lon) / 2, (p1.lat + p2.lat) / 2)

/-- Modelled from the spec: `get_normal_vector` lives in
`utils/double_gis/geometry.py`, which is not among the provided sources.
The spec (sections 4.1 and 9) defines it as a vector perpendicular to the
segment `p1 -> p2`, applied at its raw magnitude; it is modelled as the
90-degree rotation of the difference vector. -/
noncomputable def get_normal_vector (p1 p2 : Point) : ℝ × ℝ :=
  (-(p2.lat - p1.lat), p2.lon - p1.lon)

/-- `get_points_for_round_route`: the closed five-point loop
`(start, center + normal, end, center - normal, start)`. -/
noncomputable def get_points_for_round_route (start_point end_point : Point) : List Point :=
  let center_point_coordinates := get_center_of_points start_point end_point
  let normal_vector := get_normal_vector start_point end_point
  let second_point : Point :=
    ⟨center_point_coordinates.1 + normal_vector.1, center_point_coordinates.2 + normal_vector.2⟩
  let fourth_point : Point :=
    ⟨center_point_coordinates.1 - normal_vector.1, center_point_coordinates.2 - normal_vector.2⟩
  [start_point, second_point, end_point, fourth_point, start_point]

/-- The triple `for leg / for step / for edge` loop of `build_route` that
collects every edge geometry, in order. -/
def route_linestrings (legs : List Leg) : List (List Point) :=
  legs.flatMap fun leg => leg.steps.flatMap fun step => step.edges.map fun edge => edge.geometry

/-- `build_route`: request directions, fail on a non-success status, flatten
the leg/step/edge structure, then extend the polyline with
`linestring['coordinates'][1:]` for every linestring in `linestrings[:-1]`. -/
def build_route (P : Provider) (points : List Point) (alternative : ℕ) :
    Except Err (List Point) :=
  let response := P.calculate_directions (points_to_query points) alternative
  if response.status ≠ 200 then .error .validationError
  else
    match response.items with
    | [] => .error .indexError
    | item :: _ =>
        .ok ((route_linestrings item.legs).dropLast.flatMap fun linestring => linestring.drop 1)

/-- The sampling step of `_get_route_points_metadata`: all route points when
there are at most `METADATA_ROUTE_POINTS_COUNT` of them, otherwise
`route_points[i * (route_points_count // METADATA_ROUTE_POINTS_COUNT)]`
for `i in range(1, METADATA_ROUTE_POINTS_COUNT)`.  Python list indexing is
modelled with `List.getD`; the indices are always in range. -/
def metadata_sample_points (route_points : List Point) : List Point :=
  let route_points_count := route_points.length
  if route_points_count ≤ METADATA_ROUTE_POINTS_COUNT then route_points
  else
    (List.range' 1 (METADATA_ROUTE_POINTS_COUNT - 1)).map fun i =>
      route_points.getD (i * (route_points_count / METADATA_ROUTE_POINTS_COUNT)) ⟨0, 0⟩

/-- The enrichment loop of `_get_route_points_metadata`: for each point query
the nearby attraction/poi search; on status 200 take `items[0]` (an
`IndexError` if empty), normalize its point and append it; otherwise `pass`. -/
def metadata_loop (P : Provider) : List Point → Except Err (List EnrichedItem)
  | [] => .ok []
  | point :: rest =>
      let response := P.geo_search_nearby (point.lon, point.lat)
      if response.status = 200 then
        match response.items with
        | [] => .error .indexError
        | item :: _ => do
            let tail ← metadata_loop P rest
            .ok (⟨⟨item.geometry_selection.lon, item.geometry_selection.lat⟩, item.payload⟩ :: tail)
      else metadata_loop P rest

/-- `_get_route_points_metadata`: sample the route points, then enrich each
sample with nearby point-of-interest metadata. -/
def get_route_points_metadata (P : Provider) (route_points : List Point) :
    Except Err (List EnrichedItem) :=
  metadata_loop P (metadata_sample_points route_points)

/-- `prepare_route_response`: the final response dictionary.  Python evaluates
the dictionary entries in order, so `build_route` runs before
`_get_route_points_metadata`. -/
noncomputable def prepare_route_response (P : Provider)
    (walking_time : ℝ) (route_points : List Point)
    (end_point_metadata : Option EnrichedItem) (alternatives_count : ℕ) :
    Except Err RouteResponse := do
  let route ← build_route P route_points alternatives_count
  let route_points_metadata ← get_route_points_metadata P route_points
  .ok
    { walking_time := pyRound2 walking_time
      route := serialize_linestring route
      route_points := route_points_metadata
      steps_count := pyRound (SPEED * walking_time / AVERAGE_STRIDE_LENGTH)
      end_point_data := end_point_metadata }

/-- `get_search_polygon`: the fixed-size bounding rectangle around the start. -/
noncomputable def get_search_polygon (start_point : Point) : Point × Point :=
  (⟨start_point.lon - 0.029, start_point.lat + 0.019⟩,
   ⟨start_point.lon + 0.029, start_point.lat - 0.019⟩)

/-- Modelled from the spec: the `POIRouteSerializer` category constant for bars;
the serializer module is not among the provided sources. -/
def POIRouteSerializer.BAR : String := "bar"

/-- Modelled from the spec: the `POIRouteSerializer` category constant for culture. -/
def POIRouteSerializer.CULTURE : String := "culture"

/-- Modelled from the spec: the `POIRouteSerializer` category constant for food. -/
def POIRouteSerializer.FOOD : String := "food"

/-- Modelled from the spec: the `POIRouteSerializer` category constant for romantic. -/
def POIRouteSerializer.ROMANTIC : String := "romantic"

/-- Modelled from the spec: the `POIRouteSerializer` category constant for investigation. -/
def POIRouteSerializer.INVESTIGATE : String := "investigate"

/-- `get_search_query_by_type`: the static category-to-query mapping; an
unmapped category falls through the `if`/`elif` chain and yields `None`. -/
def get_search_query_by_type (ty : String) : Option String :=
  if ty = POIRouteSerializer.BAR then some "Бар"
  else if ty = POIRouteSerializer.CULTURE then some "Театр"
  else if ty = POIRouteSerializer.FOOD then some "Продукты"
  else if ty = POIRouteSerializer.ROMANTIC then some "Кинотеатр"
  else if ty = POIRouteSerializer.INVESTIGATE then some "Памятник"
  else none

/-- The shared scoring loop of `search_optimal_organization_point` and
`search_optimal_geo_point` (the Python bodies are identical except for how an
item's point is extracted, here `pointOf`).  The accumulator is
`(optimal_time, optimal_point, metadata)`, `none` standing for the initial
`None` values; the `optimal_time is None or ... > ...` short-circuit
disjunction becomes the match on the accumulator. -/
noncomputable def select_optimal {α : Type} (dist : Point → Point → ℝ) (start_point : Point)
    (pointOf : α → Point) :
    Option (ℝ × Point × α) → List α → Option (ℝ × Point × α)
  | acc, [] => acc
  | acc, item :: rest =>
      let item_point := pointOf item
      let walking_time := Real.pi * estimate_walking_time dist start_point item_point
      match acc with
      | none => select_optimal dist start_point pointOf (some (walking_time, item_point, item)) rest
      | some (optimal_time, optimal_point, metadata) =>
          if |optimal_time - OPTIMAL_WALK_TIME| > |walking_time - OPTIMAL_WALK_TIME| then
            select_optimal dist start_point pointOf (some (walking_time, item_point, item)) rest
          else
            select_optimal dist start_point pointOf
              (some (optimal_time, optimal_point, metadata)) rest

/-- `search_optimal_organization_point`: score the branch-search items; with an
empty list the final `optimal_point['coordinates']` dereferences `None`. -/
noncomputable def search_optimal_organization_point (dist : Point → Point → ℝ)
    (start_point : Point) (items : List OrgItem) : Except Err (Point × EnrichedItem) :=
  match select_optimal dist start_point (fun item => ⟨item.point_lon, item.point_lat⟩)
      none items with
  | none => .error .noneTypeError
  | some (_, optimal_point, metadata) =>
      .ok (optimal_point, ⟨⟨optimal_point.lon, optimal_point.lat⟩, metadata.payload⟩)

/-- `search_organization_point`: catalog/branch search over the rectangle,
failing on a non-success status, then the organization-shape scorer. -/
noncomputable def search_organization_point (P : Provider) (dist : Point → Point → ℝ)
    (start_point point1 point2 : Point) (query : Option String) :
    Except Err (Point × EnrichedItem) :=
  let response := P.branch_search (point1.lon, point1.lat) (point2.lon, point2.lat) query
  if response.status ≠ 200 then .error .validationError
  else search_optimal_organization_point dist start_point response.items

/-- `search_optimal_geo_point`: score the geo-search items (WKT geometries,
modelled decoded); with an empty list the final
`optimal_point['coordinates']` dereferences `None`. -/
noncomputable def search_optimal_geo_point (dist : Point → Point → ℝ)
    (start_point : Point) (items : List GeoItem) : Except Err (Point × EnrichedItem) :=
  match select_optimal dist start_point (fun item => item.geometry_selection) none items with
  | none => .error .noneTypeError
  | some (_, optimal_point, metadata) =>
      .ok (optimal_point, ⟨⟨optimal_point.lon, optimal_point.lat⟩, metadata.payload⟩)

/-- `search_geo_point`: geo search over the rectangle; on status 200 run the
geo-shape scorer; otherwise raise `ValidationError` only when `query is None`,
and fall off the function (returning `None`) when a query was provided. -/
noncomputable def search_geo_point (P : Provider) (dist : Point → Point → ℝ)
    (start_point point1 point2 : Point) (query : Option String) :
    Except Err (Option (Point × EnrichedItem)) :=
  let response := P.geo_search_rect (point1.lon, point1.lat) (point2.lon, point2.lat) query
  if response.status = 200 then
    Except.map some (search_optimal_geo_point dist start_point response.items)
  else if query = none then .error .validationError
  else .ok none

/-- `search_destination`: geo search first; when it produced nothing fall back
to the catalog/branch search over the same rectangle and query. -/
noncomputable def search_destination (P : Provider) (dist : Point → Point → ℝ)
    (start_point : Point) (ty : String) : Except Err (Point × EnrichedItem) := do
  let point1 := (get_search_polygon start_point).1
  let point2 := (get_search_polygon start_point).2
  let query := get_search_query_by_type ty
  let result_point_data ← search_geo_point P dist start_point point1 point2 query
  match result_point_data with
  | none => search_organization_point P dist start_point point1 point2 query
  | some d => .ok d

/-- `POIRouteView.post` after input validation: find the destination, compute
`walking_time = math.pi * estimate_walking_time(start, end)`, and build the
response over the five-point loop (the logging `print` is out of scope). -/
noncomputable def POIRouteView.post (P : Provider) (dist : Point → Point → ℝ)
    (start_point : Point) (ty : String) : Except Err RouteResponse := do
  let (end_point, metadata) ← search_destination P dist start_point ty
  let walking_time := Real.pi * estimate_walking_time dist start_point end_point
  prepare_route_response P walking_time (get_points_for_round_route start_point end_point)
    (some metadata) 0

/-- `ConcreteRouteView.post` after input validation: the walking time is the
bare `estimate_walking_time(start, end)` and the route is the two points,
with `alternatives_count=ALTERNATIVES_COUNT`. -/
noncomputable def ConcreteRouteView.post (P : Provider) (dist : Point → Point → ℝ)
    (start_point end_point : Point) : Except Err RouteResponse :=
  prepare_route_response P (estimate_walking_time dist start_point end_point)
    [start_point, end_point] none ALTERNATIVES_COUNT

/-- Polyline assembly as claim C1 and spec section 4.4 describe it: drop the
first and the last edge-geometry, then concatenate the remaining edges'
points, omitting each retained edge's first point except for the first
retained edge.  Stated from the spec's words, for comparison against
`build_route` (which is the translation of the source). -/
def spec_build_polyline (edges : List (List Point)) : List Point :=
  match (edges.drop 1).dropLast with
  | [] => []
  | first :: rest => first ++ rest.flatMap fun l => l.drop 1

/-- A zero great-circle distance function, used for concrete evaluations. -/
def dist0 : Point → Point → ℝ := fun _ _ => 0

/-- The origin point, used for concrete evaluations. -/
def p0 : Point := ⟨0, 0⟩

/-- A directions item whose flattened edge list has exactly four two-point
edges with pairwise distinct coordinates. -/
def routeItem4 : RouteItem :=
  ⟨[⟨[⟨[⟨[⟨0, 0⟩, ⟨1, 0⟩]⟩, ⟨[⟨2, 0⟩, ⟨3, 0⟩]⟩, ⟨[⟨4, 0⟩, ⟨5, 0⟩]⟩, ⟨[⟨6, 0⟩, ⟨7, 0⟩]⟩]⟩]⟩]⟩

/-- A directions item whose flattened edge list has exactly two edges. -/
def routeItem2 : RouteItem :=
  ⟨[⟨[⟨[⟨[⟨0, 0⟩, ⟨1, 0⟩]⟩, ⟨[⟨2, 0⟩, ⟨3, 0⟩]⟩]⟩]⟩]⟩

/-- A provider returning the four-edge directions response. -/
def P4 : Provider :=
  ⟨fun _ _ => ⟨200, [routeItem4]⟩, fun _ => ⟨404, []⟩,
   fun _ _ _ => ⟨500, []⟩, fun _ _ _ => ⟨500, []⟩⟩

/-- A provider returning the two-edge directions response. -/
def P2 : Provider :=
  ⟨fun _ _ => ⟨200, [routeItem2]⟩, fun _ => ⟨404, []⟩,
   fun _ _ _ => ⟨500, []⟩, fun _ _ _ => ⟨500, []⟩⟩

/-- A provider whose rectangle geo search fails with status 500 while the
catalog/branch search succeeds with a single candidate. -/
def P500 : Provider :=
  ⟨fun _ _ => ⟨500, []⟩, fun _ => ⟨404, []⟩,
   fun _ _ _ => ⟨500, []⟩, fun _ _ _ => ⟨200, [⟨1, 2, 7⟩]⟩⟩

/-- A provider whose rectangle geo search succeeds with a single candidate at
`(3, 4)`, whose directions succeed, and whose nearby lookup fails. -/
def Pg : Provider :=
  ⟨fun _ _ => ⟨200, [routeItem4]⟩, fun _ => ⟨404, []⟩,
   fun _ _ _ => ⟨200, [⟨⟨3, 4⟩, 7⟩]⟩, fun _ _ _ => ⟨500, []⟩⟩

/-- A provider whose directions succeed with an empty leg list and whose
nearby lookup fails with status 404. -/
def Pok : Provider :=
  ⟨fun _ _ => ⟨200, [⟨[]⟩]⟩, fun _ => ⟨404, []⟩,
   fun _ _ _ => ⟨500, []⟩, fun _ _ _ => ⟨500, []⟩⟩

/-- The response `Pok` produces for `walking_time = 1` and no route points. -/
noncomputable def rOk : RouteResponse :=
  ⟨pyRound2 1, [], [], pyRound (SPEED * 1 / AVERAGE_STRIDE_LENGTH), none⟩

/-- On a success status with at least one routing item, `build_route` returns
the flattened edge geometries minus the last one, each without its first point. -/
theorem build_route_success (P : Provider) (points : List Point) (alternative : ℕ)
    (item : RouteItem) (rest : List RouteItem)
    (hstatus : (P.calculate_directions (points_to_query points) alternative).status = 200)
    (hitems : (P.calculate_directions (points_to_query points) alternative).items = item :: rest) :
    build_route P points alternative =
      .ok ((route_linestrings item.legs).dropLast.flatMap fun linestring => linestring.drop 1) := by
  simp only [build_route, hstatus, hitems]
  simp

/-- Claim C1 (amended): for every successful directions response, `build_route`
drops only the LAST edge-geometry of the flattened leg/step/edge list and omits
the first point of EVERY retained edge, including the first retained edge; in
particular, for a response with exactly 4 edges the polyline is the
concatenation of the first three edges' points, each without its first point. -/
theorem claim1_amended (P : Provider) (points : List Point) (alternative : ℕ)
    (item : RouteItem) (rest : List RouteItem)
    (hstatus : (P.calculate_directions (points_to_query points) alternative).status = 200)
    (hitems : (P.calculate_directions (points_to_query points) alternative).items = item :: rest) :
    build_route P points alternative =
      .ok ((route_linestrings item.legs).dropLast.flatMap fun linestring => linestring.drop 1) ∧
    (∀ e1 e2 e3 e4, route_linestrings item.legs = [e1, e2, e3, e4] →
      build_route P points alternative = .ok (e1.drop 1 ++ e2.drop 1 ++ e3.drop 1)) := by
  refine ⟨build_route_success P points alternative item rest hstatus hitems, ?_⟩
  intro e1 e2 e3 e4 h4
  rw [build_route_success P points alternative item rest hstatus hitems, h4]
  simp

/-- Claim C1 (counterexample): a successful four-edge response on which
`build_route` keeps the tail of the first edge, unlike the claimed
drop-first-and-last stitching described by `spec_build_polyline`. -/
theorem claim1_counterexample :
    build_route P4 [] 0 = .ok [⟨1, 0⟩, ⟨3, 0⟩, ⟨5, 0⟩] ∧
    (route_linestrings routeItem4.legs).length = 4 ∧
    spec_build_polyline (route_linestrings routeItem4.legs) = [⟨2, 0⟩, ⟨3, 0⟩, ⟨5, 0⟩] ∧
    ([⟨1, 0⟩, ⟨3, 0⟩, ⟨5, 0⟩] : List Point) ≠ [⟨2, 0⟩, ⟨3, 0⟩, ⟨5, 0⟩] := by
  refine ⟨rfl, rfl, rfl, ?_⟩
  norm_num [Point.mk.injEq]

/-- Claim C1 (witness): the amended statement evaluated on the concrete
four-edge provider. -/
theorem claim1_witness :
    build_route P4 [] 0 =
      .ok ((route_linestrings routeItem4.legs).dropLast.flatMap fun linestring =>
        linestring.drop 1) :=
  (claim1_amended P4 [] 0 routeItem4 [] rfl rfl).1

/-- Claim C3 (amended): `build_route` performs no minimum-edge check and has no
empty-route failure: on a successful response whose flattened edge list has
fewer than 3 edges it still returns the usual drop-last, drop-first-points
concatenation (empty when at most one edge was returned). -/
theorem claim3_amended (P : Provider) (points : List Point) (alternative : ℕ)
    (item : RouteItem) (rest : List RouteItem)
    (hstatus : (P.calculate_directions (points_to_query points) alternative).status = 200)
    (hitems : (P.calculate_directions (points_to_query points) alternative).items = item :: rest)
    (_hfew : (route_linestrings item.legs).length < 3) :
    build_route P points alternative =
      .ok ((route_linestrings item.legs).dropLast.flatMap fun linestring => linestring.drop 1) :=
  build_route_success P points alternative item rest hstatus hitems

/-- Claim C3 (counterexample): a successful response with exactly 2 edges on
which `build_route` succeeds instead of failing. -/
theorem claim3_counterexample :
    (route_linestrings routeItem2.legs).length = 2 ∧
    build_route P2 [] 0 = .ok [⟨1, 0⟩] :=
  ⟨rfl, rfl⟩

/-- Claim C3 (witness): the amended statement evaluated on the concrete
two-edge provider. -/
theorem claim3_witness :
    build_route P2 [] 0 =
      .ok ((route_linestrings routeItem2.legs).dropLast.flatMap fun linestring =>
        linestring.drop 1) :=
  claim3_amended P2 [] 0 routeItem2 [] rfl rfl (by decide)

/-- Claim C4: for every start point, both destination-scorer variants applied
to an empty candidate list fail (the `None` optimal point is dereferenced,
which the spec's taxonomy calls `NoCandidatesError`). -/
theorem claim4_empty_candidates :
    ∀ (dist : Point → Point → ℝ) (start_point : Point),
      search_optimal_geo_point dist start_point [] = .error .noneTypeError ∧
      search_optimal_organization_point dist start_point [] = .error .noneTypeError :=
  fun _ _ => ⟨rfl, rfl⟩

/-- Claim C6: `get_points_for_round_route` returns exactly the five-point
sequence start, center plus normal, end, center minus normal, start; its first
and last elements equal the start point. -/
theorem claim6_loop_waypoints :
    ∀ start_point end_point : Point,
      get_points_for_round_route start_point end_point =
        [start_point,
         ⟨(get_center_of_points start_point end_point).1 +
            (get_normal_vector start_point end_point).1,
          (get_center_of_points start_point end_point).2 +
            (get_normal_vector start_point end_point).2⟩,
         end_point,
         ⟨(get_center_of_points start_point end_point).1 -
            (get_normal_vector start_point end_point).1,
          (get_center_of_points start_point end_point).2 -
            (get_normal_vector start_point end_point).2⟩,
         start_point] ∧
      (get_points_for_round_route start_point end_point).length = 5 ∧
      (get_points_for_round_route start_point end_point).head? = some start_point ∧
      (get_points_for_round_route start_point end_point).getLast? = some start_point :=
  fun _ _ => ⟨rfl, rfl, rfl, rfl⟩

/-- The scoring loop started from a first-seen candidate `b` returns the first
candidate of `b :: items` whose walking-time deviation from
`OPTIMAL_WALK_TIME` is minimal: the result is an element of the list, its
deviation is minimal, and every earlier element has strictly larger deviation
(the running best is replaced only under a strict comparison). -/
theorem select_optimal_first_argmin {α : Type} (dist : Point → Point → ℝ) (start_point : Point)
    (pointOf : α → Point) :
    ∀ (items : List α) (b : α), ∃ pre j post,
      b :: items = pre ++ j :: post ∧
      select_optimal dist start_point pointOf
        (some (Real.pi * estimate_walking_time dist start_point (pointOf b), pointOf b, b))
        items =
        some (Real.pi * estimate_walking_time dist start_point (pointOf j), pointOf j, j) ∧
      (∀ y ∈ b :: items,
        |Real.pi * estimate_walking_time dist start_point (pointOf j) - OPTIMAL_WALK_TIME| ≤
          |Real.pi * estimate_walking_time dist start_point (pointOf y) - OPTIMAL_WALK_TIME|) ∧
      (∀ y ∈ pre,
        |Real.pi * estimate_walking_time dist start_point (pointOf j) - OPTIMAL_WALK_TIME| <
          |Real.pi * estimate_walking_time dist start_point (pointOf y) - OPTIMAL_WALK_TIME|) := by
  intro items
  induction items with
  | nil =>
      intro b
      refine ⟨[], b, [], rfl, rfl, ?_, by simp⟩
      intro y hy
      simp only [List.mem_singleton] at hy
      subst hy
      exact le_refl _
  | cons x xs ih =>
      intro b
      by_cases hc :
          |Real.pi * estimate_walking_time dist start_point (pointOf b) - OPTIMAL_WALK_TIME| >
            |Real.pi * estimate_walking_time dist start_point (pointOf x) - OPTIMAL_WALK_TIME|
      · obtain ⟨pre, j, post, heq, hsel, hmin, hpre⟩ := ih x
        refine ⟨b :: pre, j, post, ?_, ?_, ?_, ?_⟩
        · rw [List.cons_append, ← heq]
        · simp only [select_optimal]
          rw [if_pos hc]
          exact hsel
        · intro y hy
          rcases List.mem_cons.mp hy with hyb | hyx
          · subst hyb
            exact le_of_lt (lt_of_le_of_lt (hmin x (List.mem_cons_self x xs)) hc)
          · exact hmin y hyx
        · intro y hy
          rcases List.mem_cons.mp hy with hyb | hyp
          · subst hyb
            exact lt_of_le_of_lt (hmin x (List.mem_cons_self x xs)) hc
          · exact hpre y hyp
      · push_neg at hc
        obtain ⟨pre, j, post, heq, hsel, hmin, hpre⟩ := ih b
        cases pre with
        | nil =>
            simp only [List.nil_append] at heq
            injection heq with hjb hpost
            subst hjb
            subst hpost
            refine ⟨[], b, x :: xs, rfl, ?_, ?_, by simp⟩
            · simp only [select_optimal]
              rw [if_neg (not_lt.mpr hc)]
              exact hsel
            · intro y hy
              rcases List.mem_cons.mp hy with hyb | hyx
              · subst hyb
                exact le_refl _
              · rcases List.mem_cons.mp hyx with hyx2 | hyp
                · subst hyx2
                  exact hc
                · exact hmin y (List.mem_cons_of_mem b hyp)
        | cons p pre2 =>
            injection heq with hbp htail
            subst hbp
            refine ⟨b :: x :: pre2, j, post, ?_, ?_, ?_, ?_⟩
            · rw [htail]
              rfl
            · simp only [select_optimal]
              rw [if_neg (not_lt.mpr hc)]
              exact hsel
            · intro y hy
              rcases List.mem_cons.mp hy with hyb | hyx
              · subst hyb
                exact hmin y (List.mem_cons_self y _)
              · rcases List.mem_cons.mp hyx with hyx2 | hyp
                · subst hyx2
                  exact le_of_lt
                    (lt_of_lt_of_le (hpre b (List.mem_cons_self b pre2)) hc)
                · exact hmin y (List.mem_cons_of_mem b hyp)
            · intro y hy
              rcases List.mem_cons.mp hy with hyb | hyx
              · subst hyb
                exact hpre y (List.mem_cons_self y pre2)
              · rcases List.mem_cons.mp hyx with hyx2 | hyp
                · subst hyx2
                  exact lt_of_lt_of_le (hpre b (List.mem_cons_self b pre2)) hc
                · exact hpre y (List.mem_cons_of_mem b hyp)

/-- One-step unfolding of `search_optimal_geo_point` on a non-empty list. -/
theorem search_optimal_geo_point_cons (dist : Point → Point → ℝ) (start_point : Point)
    (i : GeoItem) (rest : List GeoItem) :
    search_optimal_geo_point dist start_point (i :: rest) =
      match select_optimal dist start_point (fun item => item.geometry_selection)
          (some (Real.pi * estimate_walking_time dist start_point i.geometry_selection,
                 i.geometry_selection, i)) rest with
      | none => .error .noneTypeError
      | some (_, optimal_point, metadata) =>
          .ok (optimal_point, ⟨⟨optimal_point.lon, optimal_point.lat⟩, metadata.payload⟩) := rfl

/-- One-step unfolding of `search_optimal_organization_point` on a non-empty list. -/
theorem search_optimal_organization_point_cons (dist : Point → Point → ℝ) (start_point : Point)
    (i : OrgItem) (rest : List OrgItem) :
    search_optimal_organization_point dist start_point (i :: rest) =
      match select_optimal dist start_point (fun item => (⟨item.point_lon, item.point_lat⟩ : Point))
          (some (Real.pi * estimate_walking_time dist start_point ⟨i.point_lon, i.point_lat⟩,
                 (⟨i.point_lon, i.point_lat⟩ : Point), i)) rest with
      | none => .error .noneTypeError
      | some (_, optimal_point, metadata) =>
          .ok (optimal_point, ⟨⟨optimal_point.lon, optimal_point.lat⟩, metadata.payload⟩) := rfl

/-- Claim C5: for every start point and non-empty candidate list, both scorer
variants return the candidate minimizing the absolute deviation of
`pi * estimate_walking_time(start, candidate_point)` from `OPTIMAL_WALK_TIME`,
and on ties the first-seen candidate is kept: every candidate before the
returned one is strictly worse. -/
theorem claim5_scorer (dist : Point → Point → ℝ) (start_point : Point) :
    (∀ items : List GeoItem, items ≠ [] →
      ∃ pre metadata post,
        items = pre ++ metadata :: post ∧
        search_optimal_geo_point dist start_point items =
          .ok (metadata.geometry_selection,
            ⟨⟨metadata.geometry_selection.lon, metadata.geometry_selection.lat⟩,
             metadata.payload⟩) ∧
        (∀ y ∈ items,
          |Real.pi * estimate_walking_time dist start_point metadata.geometry_selection -
              OPTIMAL_WALK_TIME| ≤
            |Real.pi * estimate_walking_time dist start_point y.geometry_selection -
              OPTIMAL_WALK_TIME|) ∧
        (∀ y ∈ pre,
          |Real.pi * estimate_walking_time dist start_point metadata.geometry_selection -
              OPTIMAL_WALK_TIME| <
            |Real.pi * estimate_walking_time dist start_point y.geometry_selection -
              OPTIMAL_WALK_TIME|)) ∧
    (∀ items : List OrgItem, items ≠ [] →
      ∃ pre metadata post,
        items = pre ++ metadata :: post ∧
        search_optimal_organization_point dist start_point items =
          .ok (⟨metadata.point_lon, metadata.point_lat⟩,
            ⟨⟨metadata.point_lon, metadata.point_lat⟩, metadata.payload⟩) ∧
        (∀ y ∈ items,
          |Real.pi * estimate_walking_time dist start_point
              ⟨metadata.point_lon, metadata.point_lat⟩ - OPTIMAL_WALK_TIME| ≤
            |Real.pi * estimate_walking_time dist start_point
              ⟨y.point_lon, y.point_lat⟩ - OPTIMAL_WALK_TIME|) ∧
        (∀ y ∈ pre,
          |Real.pi * estimate_walking_time dist start_point
              ⟨metadata.point_lon, metadata.point_lat⟩ - OPTIMAL_WALK_TIME| <
            |Real.pi * estimate_walking_time dist start_point
              ⟨y.point_lon, y.point_lat⟩ - OPTIMAL_WALK_TIME|)) := by
  constructor
  · intro items hne
    obtain ⟨i, rest, rfl⟩ := List.exists_cons_of_ne_nil hne
    obtain ⟨pre, j, post, heq, hsel, hmin, hpre⟩ :=
      select_optimal_first_argmin dist start_point (fun item => item.geometry_selection) rest i
    refine ⟨pre, j, post, heq, ?_, fun y hy => hmin y hy, fun y hy => hpre y hy⟩
    rw [search_optimal_geo_point_cons]
    simp only [hsel]
  · intro items hne
    obtain ⟨i, rest, rfl⟩ := List.exists_cons_of_ne_nil hne
    obtain ⟨pre, j, post, heq, hsel, hmin, hpre⟩ :=
      select_optimal_first_argmin dist start_point
        (fun item => (⟨item.point_lon, item.point_lat⟩ : Point)) rest i
    refine ⟨pre, j, post, heq, ?_, fun y hy => hmin y hy, fun y hy => hpre y hy⟩
    rw [search_optimal_organization_point_cons]
    simp only [hsel]

/-- Claim C5 (witness): the first-argmin property evaluated on a concrete
singleton candidate list. -/
theorem claim5_witness :
    ∃ pre metadata post,
      ([⟨⟨0, 0⟩, 5⟩] : List GeoItem) = pre ++ metadata :: post ∧
      search_optimal_geo_point dist0 p0 [⟨⟨0, 0⟩, 5⟩] =
        .ok (metadata.geometry_selection,
          ⟨⟨metadata.geometry_selection.lon, metadata.geometry_selection.lat⟩,
           metadata.payload⟩) ∧
      (∀ y ∈ ([⟨⟨0, 0⟩, 5⟩] : List GeoItem),
        |Real.pi * estimate_walking_time dist0 p0 metadata.geometry_selection -
            OPTIMAL_WALK_TIME| ≤
          |Real.pi * estimate_walking_time dist0 p0 y.geometry_selection -
            OPTIMAL_WALK_TIME|) ∧
      (∀ y ∈ pre,
        |Real.pi * estimate_walking_time dist0 p0 metadata.geometry_selection -
            OPTIMAL_WALK_TIME| <
          |Real.pi * estimate_walking_time dist0 p0 y.geometry_selection -
            OPTIMAL_WALK_TIME|) :=
  (claim5_scorer dist0 p0).1 [⟨⟨0, 0⟩, 5⟩] (by simp)

/-- Claim C2 (counterexample): a provider whose rectangle geo search fails with
status 500 while a search term ("Бар", from the bar category) was provided:
`search_geo_point` returns `None` instead of failing, and `find_destination`
falls back to the catalog/branch search and succeeds. -/
theorem claim2_counterexample :
    get_search_query_by_type "bar" = some "Бар" ∧
    (P500.geo_search_rect ((get_search_polygon p0).1.lon, (get_search_polygon p0).1.lat)
        ((get_search_polygon p0).2.lon, (get_search_polygon p0).2.lat)
        (some "Бар")).status = 500 ∧
    search_geo_point P500 dist0 p0 (get_search_polygon p0).1 (get_search_polygon p0).2
        (some "Бар") = .ok none ∧
    search_destination P500 dist0 p0 "bar" = .ok (⟨1, 2⟩, ⟨⟨1, 2⟩, 7⟩) :=
  ⟨rfl, rfl, rfl, rfl⟩

/-- Claim C2 (amended): a geo-search non-success status makes
`find_destination` fail with the provider error exactly when NO search term
was given; when a term was provided the failure is tolerated and the operation
falls back to the catalog/branch search over the same rectangle. -/
theorem claim2_amended :
    ∀ (P : Provider) (dist : Point → Point → ℝ) (start_point : Point) (ty : String),
      (P.geo_search_rect
          ((get_search_polygon start_point).1.lon, (get_search_polygon start_point).1.lat)
          ((get_search_polygon start_point).2.lon, (get_search_polygon start_point).2.lat)
          (get_search_query_by_type ty)).status ≠ 200 →
      ((get_search_query_by_type ty = none →
          search_destination P dist start_point ty = .error .validationError) ∧
       (∀ q, get_search_query_by_type ty = some q →
          search_destination P dist start_point ty =
            search_organization_point P dist start_point (get_search_polygon start_point).1
              (get_search_polygon start_point).2 (some q))) := by
  intro P dist start_point ty hfail
  constructor
  · intro hq
    have hsg : search_geo_point P dist start_point (get_search_polygon start_point).1
        (get_search_polygon start_point).2 (get_search_query_by_type ty) =
        .error .validationError := by
      simp only [search_geo_point]
      rw [if_neg hfail, if_pos hq]
    simp only [search_destination]
    rw [hsg]
    rfl
  · intro q hq
    have hsg : search_geo_point P dist start_point (get_search_polygon start_point).1
        (get_search_polygon start_point).2 (get_search_query_by_type ty) = .ok none := by
      simp only [search_geo_point]
      rw [if_neg hfail, if_neg (by simp [hq])]
    simp only [search_destination]
    rw [hsg, hq]
    rfl

/-- Claim C2 (witness): the amended statement evaluated on a concrete failing
provider, once with an unmapped category (no term: provider error) and once
with the culture category (term provided: fallback). -/
theorem claim2_witness :
    search_destination P500 dist0 p0 "zzz" = .error .validationError ∧
    search_destination P500 dist0 p0 "culture" =
      search_organization_point P500 dist0 p0 (get_search_polygon p0).1
        (get_search_polygon p0).2 (some "Театр") := by
  constructor
  · exact (claim2_amended P500 dist0 p0 "zzz" (by decide)).1 (by decide)
  · exact (claim2_amended P500 dist0 p0 "culture" (by decide)).2 "Театр" (by decide)

/-- When every sampled point whose nearby lookup reports success has a
non-empty item list, the enrichment loop succeeds and keeps exactly the
successful samples, silently omitting the failed ones. -/
theorem metadata_loop_ok (P : Provider) :
    ∀ pts : List Point,
      (∀ p ∈ pts, (P.geo_search_nearby (p.lon, p.lat)).status = 200 →
        (P.geo_search_nearby (p.lon, p.lat)).items ≠ []) →
      metadata_loop P pts = .ok (pts.filterMap fun p =>
        if (P.geo_search_nearby (p.lon, p.lat)).status = 200 then
          (P.geo_search_nearby (p.lon, p.lat)).items.head?.map fun item =>
            ⟨⟨item.geometry_selection.lon, item.geometry_selection.lat⟩, item.payload⟩
        else none) := by
  intro pts
  induction pts with
  | nil => intro _; rfl
  | cons q rest ih =>
      intro h
      have hrest := ih fun p hp => h p (List.mem_cons_of_mem q hp)
      by_cases hs : (P.geo_search_nearby (q.lon, q.lat)).status = 200
      · obtain ⟨it, tl, hit⟩ :=
          List.exists_cons_of_ne_nil (h q (List.mem_cons_self q rest) hs)
        simp only [metadata_loop]
        rw [if_pos hs, hit]
        simp only [hrest]
        simp [List.filterMap_cons, hs, hit]
        rfl
      · simp only [metadata_loop]
        rw [if_neg hs]
        rw [hrest]
        simp [List.filterMap_cons, hs]

/-- When both the directions request and the metadata enrichment succeed,
`prepare_route_response` assembles exactly this response record. -/
theorem prepare_route_response_ok (P : Provider) (walking_time : ℝ)
    (route_points : List Point) (end_point_metadata : Option EnrichedItem)
    (alternatives_count : ℕ) (line : List Point) (md : List EnrichedItem)
    (hline : build_route P route_points alternatives_count = .ok line)
    (hmd : get_route_points_metadata P route_points = .ok md) :
    prepare_route_response P walking_time route_points end_point_metadata alternatives_count =
      .ok ⟨pyRound2 walking_time, serialize_linestring line, md,
        pyRound (SPEED * walking_time / AVERAGE_STRIDE_LENGTH), end_point_metadata⟩ := by
  simp only [prepare_route_response, hline, hmd]
  rfl

/-- A successful `prepare_route_response` determines the rounded walking time,
the steps count and the end-point metadata of the result. -/
theorem prepare_route_response_ok_inv (P : Provider) (walking_time : ℝ)
    (route_points : List Point) (end_point_metadata : Option EnrichedItem)
    (alternatives_count : ℕ) (r : RouteResponse)
    (h : prepare_route_response P walking_time route_points end_point_metadata
        alternatives_count = .ok r) :
    r.walking_time = pyRound2 walking_time ∧
    r.steps_count = pyRound (SPEED * walking_time / AVERAGE_STRIDE_LENGTH) ∧
    r.end_point_data = end_point_metadata := by
  cases hb : build_route P route_points alternatives_count with
  | error e =>
      rw [show prepare_route_response P walking_time route_points end_point_metadata
          alternatives_count = .error e by simp only [prepare_route_response, hb]; rfl] at h
      exact Except.noConfusion h
  | ok line =>
      cases hm : get_route_points_metadata P route_points with
      | error e =>
          rw [show prepare_route_response P walking_time route_points end_point_metadata
              alternatives_count = .error e by simp only [prepare_route_response, hb, hm]; rfl] at h
          exact Except.noConfusion h
      | ok md =>
          rw [prepare_route_response_ok P walking_time route_points end_point_metadata
            alternatives_count line md hb hm] at h
          injection h with h2
          subst h2
          exact ⟨rfl, rfl, rfl⟩

/-- Claim C7: for every walking time, the `steps_count` field of a
successfully assembled route response equals
`round(SPEED * walking_time / AVERAGE_STRIDE_LENGTH)`, with `SPEED` equal to
50 metres per minute (3 km/h) and a stride of 0.6 metres. -/
theorem claim7_steps_count :
    ∀ (P : Provider) (walking_time : ℝ) (route_points : List Point)
      (end_point_metadata : Option EnrichedItem) (alternatives_count : ℕ) (r : RouteResponse),
      prepare_route_response P walking_time route_points end_point_metadata
          alternatives_count = .ok r →
      r.steps_count = pyRound (SPEED * walking_time / AVERAGE_STRIDE_LENGTH) ∧
      SPEED = 50 ∧ AVERAGE_STRIDE_LENGTH = 3 / 5 := by
  intro P walking_time route_points end_point_metadata alternatives_count r h
  refine ⟨(prepare_route_response_ok_inv P walking_time route_points end_point_metadata
    alternatives_count r h).2.1, ?_, ?_⟩
  · norm_num [SPEED]
  · norm_num [AVERAGE_STRIDE_LENGTH]

/-- Claim C7 (witness): evaluated on a concrete provider whose directions
succeed with an empty leg list. -/
theorem claim7_witness :
    rOk.steps_count = pyRound (SPEED * 1 / AVERAGE_STRIDE_LENGTH) ∧
    SPEED = 50 ∧ AVERAGE_STRIDE_LENGTH = 3 / 5 :=
  claim7_steps_count Pok 1 [] none 0 rOk (by rfl)

/-- Claim C9: the `walking_time` field of a successfully assembled route
response is the input walking time rounded to two decimal places, while the
`steps_count` field is computed from the unrounded input. -/
theorem claim9_rounding :
    ∀ (P : Provider) (walking_time : ℝ) (route_points : List Point)
      (end_point_metadata : Option EnrichedItem) (alternatives_count : ℕ) (r : RouteResponse),
      prepare_route_response P walking_time route_points end_point_metadata
          alternatives_count = .ok r →
      r.walking_time = pyRound2 walking_time ∧
      r.steps_count = pyRound (SPEED * walking_time / AVERAGE_STRIDE_LENGTH) := by
  intro P walking_time route_points end_point_metadata alternatives_count r h
  have hinv := prepare_route_response_ok_inv P walking_time route_points end_point_metadata
    alternatives_count r h
  exact ⟨hinv.1, hinv.2.1⟩

/-- Claim C9 (witness): evaluated on a concrete provider whose directions
succeed with an empty leg list. -/
theorem claim9_witness :
    rOk.walking_time = pyRound2 1 ∧
    rOk.steps_count = pyRound (SPEED * 1 / AVERAGE_STRIDE_LENGTH) :=
  claim9_rounding Pok 1 [] none 0 rOk (by rfl)

/-- Claim C8: when the directions request succeeds, nearby point-of-interest
lookup failures for sampled waypoints never fail the request: the response is
still produced, the failed samples are silently omitted from `route_points`,
and exactly the successful samples are kept (the hypothesis on successful
lookups only rules out the separate `items[0]` crash on an empty success). -/
theorem claim8_enrichment_failures :
    ∀ (P : Provider) (walking_time : ℝ) (route_points : List Point)
      (end_point_metadata : Option EnrichedItem) (alternatives_count : ℕ) (line : List Point),
      build_route P route_points alternatives_count = .ok line →
      (∀ p ∈ metadata_sample_points route_points,
        (P.geo_search_nearby (p.lon, p.lat)).status = 200 →
        (P.geo_search_nearby (p.lon, p.lat)).items ≠ []) →
      prepare_route_response P walking_time route_points end_point_metadata
          alternatives_count =
        .ok ⟨pyRound2 walking_time, serialize_linestring line,
          (metadata_sample_points route_points).filterMap fun p =>
            if (P.geo_search_nearby (p.lon, p.lat)).status = 200 then
              (P.geo_search_nearby (p.lon, p.lat)).items.head?.map fun item =>
                ⟨⟨item.geometry_selection.lon, item.geometry_selection.lat⟩, item.payload⟩
            else none,
          pyRound (SPEED * walking_time / AVERAGE_STRIDE_LENGTH), end_point_metadata⟩ := by
  intro P walking_time route_points end_point_metadata alternatives_count line hline h
  exact prepare_route_response_ok P walking_time route_points end_point_metadata
    alternatives_count line _ hline
    (metadata_loop_ok P (metadata_sample_points route_points) h)

/-- Claim C8 (witness): a provider whose nearby lookup always fails with
status 404 still yields a successful response with an empty `route_points`. -/
theorem claim8_witness :
    prepare_route_response Pok 1 [p0] none 0 =
      .ok ⟨pyRound2 1, serialize_linestring [],
        (metadata_sample_points [p0]).filterMap fun p =>
          if (Pok.geo_search_nearby (p.lon, p.lat)).status = 200 then
            (Pok.geo_search_nearby (p.lon, p.lat)).items.head?.map fun item =>
              ⟨⟨item.geometry_selection.lon, item.geometry_selection.lat⟩, item.payload⟩
          else none,
        pyRound (SPEED * 1 / AVERAGE_STRIDE_LENGTH), none⟩ :=
  claim8_enrichment_failures Pok 1 [p0] none 0 [] (by rfl)
    (by intro p hp h200; simp [Pok] at h200)

/-- Claim C10: the two request flows pass different walking times to the
response builder: the category flow passes
`pi * estimate_walking_time(start, chosen end)` while the concrete flow passes
the bare `estimate_walking_time(start, end)`. -/
theorem claim10_walking_time :
    ∀ (P : Provider) (dist : Point → Point → ℝ) (start_point end_point : Point) (ty : String),
      (∀ e m, search_destination P dist start_point ty = .ok (e, m) →
        POIRouteView.post P dist start_point ty =
          prepare_route_response P (Real.pi * estimate_walking_time dist start_point e)
            (get_points_for_round_route start_point e) (some m) 0) ∧
      ConcreteRouteView.post P dist start_point end_point =
        prepare_route_response P (estimate_walking_time dist start_point end_point)
          [start_point, end_point] none ALTERNATIVES_COUNT := by
  intro P dist start_point end_point ty
  constructor
  · intro e m h
    simp only [POIRouteView.post, h]
    rfl
  · rfl

/-- Claim C10 (witness): the category flow evaluated on a concrete provider
whose geo search returns a single candidate at `(3, 4)`. -/
theorem claim10_witness :
    POIRouteView.post Pg dist0 p0 "bar" =
      prepare_route_response Pg (Real.pi * estimate_walking_time dist0 p0 ⟨3, 4⟩)
        (get_points_for_round_route p0 ⟨3, 4⟩) (some ⟨⟨3, 4⟩, 7⟩) 0 :=
  (claim10_walking_time Pg dist0 p0 p0 "bar").1 ⟨3, 4⟩ ⟨⟨3, 4⟩, 7⟩ (by rfl)
